import Mathlib

/-!
Verification development for the tool-calling orchestration core of the
vezion-interactive repository (src/src/llm_orchestrator.py and
src/src/mcp_server.py).

The Python code is shallowly embedded below: Python values flowing through
the dispatcher are modelled by `PyVal`, the OpenAI chat messages by
`Message`, the registered tools by `ToolDefinition`, and the conversation
loop of `LLMOrchestrator._execute_conversation_loop` by the fuel-indexed
function `execLoop` (the fuel is `max_iterations`, the loop variable
`iteration` of the source).  The language-model service is an oracle
parameter `llm : Nat → List Message → List ToolSchema → Except String
ModelResponse`, whose first argument is the number of calls already made in
the current `process_user_message` run (an exception raised by the OpenAI
SDK is an `Except.error`); `json.loads` of a raw tool-argument payload is an
oracle parameter `decode`.  Handler bodies delegate to external
collaborators (Supabase, ClickUp, Slack); a handler's behaviour is the
`run` field of its `ToolDefinition`, an `Except.error` modelling a raised
exception, with `str(e)` as the carried message.
-/

/-- Python values as far as the dispatcher and the loop inspect them:
`None`, booleans, integers, strings, lists and (string-keyed) dicts. -/
inductive PyVal : Type where
  | vnone : PyVal
  | vbool : Bool → PyVal
  | vint : Int → PyVal
  | vstr : String → PyVal
  | vlist : List PyVal → PyVal
  | vdict : List (String × PyVal) → PyVal

/-- Python truthiness (`bool(x)`) for the values of `PyVal`. -/
def PyVal.truthy : PyVal → Bool
  | PyVal.vnone => false
  | PyVal.vbool b => b
  | PyVal.vint n => n != 0
  | PyVal.vstr s => s != ""
  | PyVal.vlist xs => !xs.isEmpty
  | PyVal.vdict kvs => !kvs.isEmpty

/-- `d.get(k)` on a Python dict: first entry with the given key. -/
def dictGet (k : String) : List (String × PyVal) → Option PyVal
  | [] => none
  | kv :: rest => if kv.1 == k then some kv.2 else dictGet k rest

mutual

/-- `json.dumps` (default separators) on a `PyVal`.  String escaping is not
modelled: the payloads serialized by the orchestrator are opaque to it. -/
def PyVal.dumps : PyVal → String
  | PyVal.vnone => "null"
  | PyVal.vbool b => if b then "true" else "false"
  | PyVal.vint n => toString n
  | PyVal.vstr s => "\"" ++ s ++ "\""
  | PyVal.vlist xs => "[" ++ dumpsItems xs ++ "]"
  | PyVal.vdict kvs => "\x7b" ++ dumpsEntries kvs ++ "\x7d"

/-- Comma-separated `json.dumps` of the items of a list. -/
def dumpsItems : List PyVal → String
  | [] => ""
  | [x] => PyVal.dumps x
  | x :: y :: rest => PyVal.dumps x ++ ", " ++ dumpsItems (y :: rest)

/-- Comma-separated `json.dumps` of the entries of a dict. -/
def dumpsEntries : List (String × PyVal) → String
  | [] => ""
  | [kv] => "\"" ++ kv.1 ++ "\": " ++ PyVal.dumps kv.2
  | kv :: kv2 :: rest =>
      "\"" ++ kv.1 ++ "\": " ++ PyVal.dumps kv.2 ++ ", " ++ dumpsEntries (kv2 :: rest)

end

/-- One tool-call request emitted by the model
(`ChatCompletionMessageToolCall`): `tool_call.id`, `tool_call.function.name`
and the raw JSON text `tool_call.function.arguments`. -/
structure ToolCall : Type where
  id : String
  name : String
  arguments : String
deriving DecidableEq, Repr

/-- One chat message of the conversation, as built by the orchestrator:
`{"role": "system"|"user"|...}` dicts.  The assistant variant carries the
tool calls of the model turn (an empty list standing for both `None` and
`[]`, which Python treats identically in the `if ... .tool_calls:` test);
the tool variant carries `tool_call_id` and the serialized result. -/
inductive Message : Type where
  | system : String → Message
  | user : String → Message
  | assistant : List ToolCall → Option String → Message
  | tool : String → String → Message
deriving DecidableEq, Repr

/-- The model's reply for one turn (`response.choices[0].message`):
requested tool calls (empty list for `None`) and `content`
(`none` for Python `None`). -/
structure ModelResponse : Type where
  tool_calls : List ToolCall
  content : Option String
deriving DecidableEq, Repr

/-- Python type annotations as far as `_get_type_schema` inspects them. -/
inductive PyType : Type where
  | pystr : PyType
  | pyint : PyType
  | pyfloat : PyType
  | pybool : PyType
  | pynone : PyType
  | pylist : PyType → PyType
  | pydict : PyType → PyType → PyType
  | pyunion : PyType → PyType → PyType
  | pyAny : PyType
  | pyEmpty : PyType
deriving DecidableEq, Repr

/-- A JSON type schema as produced by `_get_type_schema`: either a bare
`{"type": t}` or `{"type": "array", "items": ...}`. -/
inductive TypeSchema : Type where
  | prim : String → TypeSchema
  | arr : TypeSchema → TypeSchema
deriving DecidableEq, Repr

/-- `SlackBotMCPServer._get_type_schema`: convert a Python type annotation to
a JSON schema.  The `Union` arm of the source filters `None` out of the
argument list and recurses when exactly one non-`None` member remains; with
the two-member unions of `PyType` that is the case analysis below.
Anything unrecognized (including a missing annotation, `pyEmpty`)
defaults to `{"type": "string"}`. -/
def get_type_schema : PyType → TypeSchema
  | PyType.pystr => TypeSchema.prim "string"
  | PyType.pyint => TypeSchema.prim "integer"
  | PyType.pyfloat => TypeSchema.prim "number"
  | PyType.pybool => TypeSchema.prim "boolean"
  | PyType.pylist t => TypeSchema.arr (get_type_schema t)
  | PyType.pydict _ _ => TypeSchema.prim "object"
  | PyType.pyunion PyType.pynone PyType.pynone => TypeSchema.prim "string"
  | PyType.pyunion PyType.pynone b => get_type_schema b
  | PyType.pyunion a PyType.pynone => get_type_schema a
  | PyType.pyunion _ _ => TypeSchema.prim "string"
  | PyType.pynone => TypeSchema.prim "string"
  | PyType.pyAny => TypeSchema.prim "string"
  | PyType.pyEmpty => TypeSchema.prim "string"

/-- One parameter of a registered tool function, as seen by
`inspect.signature`: its name, annotation, whether `param.default` differs
from `inspect.Parameter.empty`, and whether it is a `**kwargs`-style
var-keyword parameter (`_get_type_schema` and the `required` computation do
not distinguish the kind; it is recorded for fidelity of the signatures). -/
structure Param : Type where
  name : String
  type : PyType
  hasDefault : Bool
  isVarKeyword : Bool
deriving DecidableEq, Repr

/-- A required (no-default) positional-or-keyword parameter. -/
def reqP (n : String) (t : PyType) : Param := ⟨n, t, false, false⟩

/-- A defaulted positional-or-keyword parameter. -/
def optP (n : String) (t : PyType) : Param := ⟨n, t, true, false⟩

/-- Shorthand for `Optional[t]`, i.e. `Union[t, None]`. -/
def pyOpt (t : PyType) : PyType := PyType.pyunion t PyType.pynone

/-- A registered tool (`ToolDefinition` of mcp_server.py): its name, the
signature of its `func` as reported by `inspect.signature`, and the
behaviour of `func` itself — `Except.error msg` modelling an exception
whose `str` is `msg`.  The long free-text `description` docstrings carry no
behaviour and are not modelled. -/
structure ToolDefinition : Type where
  name : String
  params : List Param
  run : List (String × PyVal) → Except String PyVal

/-- The signatures of the 21 tool functions registered by
`SlackBotMCPServer._register_tools`, transcribed from the source.  The
`filters` entry of `get_tasks_with_time_spent` is the `**filters`
var-keyword parameter: unannotated and without a default. -/
def registered_sigs : List (String × List Param) := [
  ("get_client_mapping", [reqP "client_name" PyType.pystr]),
  ("search_client_mappings", [reqP "query" PyType.pystr]),
  ("get_all_client_names", []),
  ("update_client_mapping",
    [reqP "client_name" PyType.pystr,
     reqP "updates" (PyType.pydict PyType.pystr PyType.pyAny)]),
  ("create_client_mapping",
    [reqP "client_name" PyType.pystr,
     optP "clickup_project_name" (pyOpt PyType.pystr),
     optP "clickup_folder_name" (pyOpt PyType.pystr),
     optP "clickup_folder_id" (pyOpt PyType.pystr),
     optP "clickup_list_name" (pyOpt PyType.pystr),
     optP "clickup_list_id" (pyOpt PyType.pystr),
     optP "slack_internal_channel_name" (pyOpt PyType.pystr),
     optP "slack_internal_channel_id" (pyOpt PyType.pystr),
     optP "slack_external_channel_name" (pyOpt PyType.pystr),
     optP "slack_external_channel_id" (pyOpt PyType.pystr),
     optP "project_type" (pyOpt PyType.pystr),
     optP "available_hours" (pyOpt PyType.pyint),
     optP "revenue" (pyOpt PyType.pyfloat),
     optP "average_delivery_hourly" (pyOpt PyType.pyfloat),
     optP "status" (pyOpt PyType.pystr),
     optP "qa_list_name" (pyOpt PyType.pystr),
     optP "qa_list_id" (pyOpt PyType.pystr),
     optP "alternatives" (pyOpt (PyType.pylist PyType.pystr)),
     optP "notes" (pyOpt PyType.pystr)]),
  ("get_client_by_channel_id", [reqP "channel_id" PyType.pystr]),
  ("get_employee_by_slack_id", [reqP "slack_user_id" PyType.pystr]),
  ("get_all_employees", []),
  ("get_tasks_by_list_id",
    [reqP "list_id" PyType.pystr,
     optP "archived" (pyOpt PyType.pybool),
     optP "include_closed" (pyOpt PyType.pybool),
     optP "subtasks" (pyOpt PyType.pybool),
     optP "statuses" (pyOpt (PyType.pylist PyType.pystr)),
     optP "assignees" (pyOpt (PyType.pylist PyType.pystr)),
     optP "due_date_gt" (pyOpt PyType.pyint),
     optP "due_date_lt" (pyOpt PyType.pyint),
     optP "date_created_gt" (pyOpt PyType.pyint),
     optP "date_created_lt" (pyOpt PyType.pyint),
     optP "date_updated_gt" (pyOpt PyType.pyint),
     optP "date_updated_lt" (pyOpt PyType.pyint),
     optP "page" (pyOpt PyType.pyint),
     optP "order_by" (pyOpt PyType.pystr),
     optP "reverse" (pyOpt PyType.pybool)]),
  ("get_tasks_updated_since",
    [reqP "list_id" PyType.pystr, optP "hours_ago" PyType.pyint]),
  ("create_task",
    [reqP "list_id" PyType.pystr,
     reqP "task_data" (PyType.pydict PyType.pystr PyType.pyAny)]),
  ("update_task",
    [reqP "task_id" PyType.pystr,
     reqP "updates" (PyType.pydict PyType.pystr PyType.pyAny)]),
  ("get_task_details", [reqP "task_id" PyType.pystr]),
  ("get_list_details", [reqP "list_id" PyType.pystr]),
  ("get_tasks_with_time_spent",
    [reqP "list_id" PyType.pystr,
     ⟨"filters", PyType.pyEmpty, false, true⟩]),
  ("create_time_entry",
    [reqP "task_id" PyType.pystr,
     reqP "duration_hours" PyType.pyfloat,
     optP "description" PyType.pystr,
     optP "assignee_id" (pyOpt PyType.pyint),
     optP "billable" PyType.pybool]),
  ("get_task_time_tracking", [reqP "task_id" PyType.pystr]),
  ("get_recent_messages_by_channel",
    [reqP "channel_id" PyType.pystr,
     optP "limit" PyType.pyint,
     optP "hours_ago" (pyOpt PyType.pyint)]),
  ("get_latest_client_message", [reqP "channel_id" PyType.pystr]),
  ("search_messages_by_text",
    [reqP "channel_id" PyType.pystr,
     reqP "search_text" PyType.pystr,
     optP "limit" PyType.pyint]),
  ("get_conversation_context",
    [reqP "channel_id" PyType.pystr,
     optP "hours_ago" PyType.pyint,
     optP "limit" PyType.pyint])]

/-- The registry assembled by `_register_tools`, parametric in the
behaviour of the external collaborators each handler delegates to. -/
def registered_tools (behave : String → List (String × PyVal) → Except String PyVal) :
    List ToolDefinition :=
  registered_sigs.map (fun s => ⟨s.1, s.2, behave s.1⟩)

/-- The JSON schema exposed to the model for one tool
(one element of the result of `get_tool_schemas`): the `properties`
mapping and the `required` name list of the `parameters` object. -/
structure ToolSchema : Type where
  name : String
  properties : List (String × TypeSchema)
  required : List String
deriving DecidableEq, Repr

/-- The schema `SlackBotMCPServer.get_tool_schemas` builds for one tool:
one property per signature parameter (there is no `self` parameter on the
registered closures), mapped through `_get_type_schema`, and `required`
collecting the parameters whose default is `inspect.Parameter.empty`. -/
def tool_schema (t : ToolDefinition) : ToolSchema :=
  { name := t.name
    properties := t.params.map (fun p => (p.name, get_type_schema p.type))
    required := (t.params.filter (fun p => !p.hasDefault)).map (fun p => p.name) }

/-- `SlackBotMCPServer.get_tool_schemas`. -/
def get_tool_schemas (tools : List ToolDefinition) : List ToolSchema :=
  tools.map tool_schema

/-- `SlackBotMCPServer.call_tool`: resolve the tool by name (first match in
the registry list), invoke it, and re-raise any exception — including the
`ValueError` of a failed lookup — wrapped as `Exception("Tool call failed:
" + str(e))`. -/
def call_tool (tools : List ToolDefinition) (tool_name : String)
    (arguments : List (String × PyVal)) : Except String PyVal :=
  match tools.find? (fun t => t.name == tool_name) with
  | none => Except.error ("Tool call failed: Tool \x27" ++ tool_name ++ "\x27 not found")
  | some t =>
      match t.run arguments with
      | Except.ok r => Except.ok r
      | Except.error e => Except.error ("Tool call failed: " ++ e)

/-- `LLMOrchestrator._execute_tool_call`: decode the raw argument payload
(`json.loads`, modelled by the `decode` oracle), returning an
`{"error": ...}` envelope if decoding fails; then call the tool through the
server, converting any raised exception into an `{"error": ...}` envelope.
It always returns a value; no exception escapes. -/
def execute_tool_call (decode : String → Except String (List (String × PyVal)))
    (tools : List ToolDefinition) (tc : ToolCall) : PyVal :=
  match decode tc.arguments with
  | Except.error e =>
      PyVal.vdict [("error", PyVal.vstr ("Invalid tool arguments: " ++ e))]
  | Except.ok args =>
      match call_tool tools tc.name args with
      | Except.ok r => r
      | Except.error e =>
          PyVal.vdict [("error", PyVal.vstr ("Tool execution failed: " ++ e))]

/-- The loop's success test on a tool result:
`isinstance(tool_result, dict) and tool_result.get("error")`. -/
def isErrorResult : PyVal → Bool
  | PyVal.vdict kvs =>
      match dictGet "error" kvs with
      | some v => v.truthy
      | none => false
  | _ => false

/-- The serialization of a tool result into the tool message content:
`json.dumps(tool_result) if isinstance(tool_result, (dict, list)) else
str(tool_result)`. -/
def serializeToolResult : PyVal → String
  | PyVal.vdict kvs => PyVal.dumps (PyVal.vdict kvs)
  | PyVal.vlist xs => PyVal.dumps (PyVal.vlist xs)
  | PyVal.vnone => "None"
  | PyVal.vbool b => if b then "True" else "False"
  | PyVal.vint n => toString n
  | PyVal.vstr s => s

/-- The tool-result messages appended during one `ExecutingTools` step, in
the emission order of the model's tool calls. -/
def turnToolMessages (decode : String → Except String (List (String × PyVal)))
    (tools : List ToolDefinition) (tcs : List ToolCall) : List Message :=
  tcs.map (fun tc =>
    Message.tool tc.id (serializeToolResult (execute_tool_call decode tools tc)))

/-- The `current_iteration_tools` list of one turn: `{name, result}` for
every tool call of the turn that did not yield a top-level error envelope,
in emission order. -/
def successfulTools (decode : String → Except String (List (String × PyVal)))
    (tools : List ToolDefinition) (tcs : List ToolCall) : List (String × PyVal) :=
  (tcs.map (fun tc => (tc.name, execute_tool_call decode tools tc))).filter
    (fun p => !isErrorResult p.2)

/-- Outcome of `_execute_conversation_loop`: a returned string or an
exception propagating out of the loop (only the model-call wrapper raises
there). -/
inductive LoopOutcome : Type where
  | ret : String → LoopOutcome
  | raised : String → LoopOutcome
deriving DecidableEq, Repr

/-- The language-model oracle: number of calls already made in this run,
messages, tool schemas; `Except.error e` models the OpenAI call raising an
exception with `str(e) = e`. -/
def LLM : Type :=
  Nat → List Message → List ToolSchema → Except String ModelResponse

/-- The fixed fallback when the model returns no tool calls and an empty
final content. -/
def noResponseFallback : String :=
  "I apologize, but I couldn\x27t generate a proper response. Please try rephrasing your question."

/-- The fixed apology returned when the iteration bound is exhausted and no
grace-call text is usable. -/
def exhaustedApology : String :=
  "I apologize, but I\x27m having trouble processing your request completely. Please try breaking it down into smaller questions."

/-- The system instruction appended for the grace call after the iteration
bound is hit. -/
def graceInstruction : String :=
  "You have successfully completed the requested tool calls. Please provide a final response to the user based on the tool results. Do not make any more tool calls."

/-- What the exhausted path returns once the grace call has been issued:
the grace text when the call succeeded with non-empty content, and the
fixed apology otherwise (empty or missing content, or the call raising —
the surrounding `try` swallows the exception). -/
def graceOutcome : Except String ModelResponse → String
  | Except.error _ => exhaustedApology
  | Except.ok resp =>
      match resp.content with
      | some c => if c == "" then exhaustedApology else c
      | none => exhaustedApology

/-- The code after the `while` loop of `_execute_conversation_loop`: if the
last recorded successful-tools list is non-empty, make one tool-free grace
call on `messages + [system graceInstruction]` and return `graceOutcome`;
otherwise return the fixed apology without a further model call.  The
returned `Nat` is the total number of model calls of the run; the returned
message list is the loop's `messages` (the grace call works on a fresh
concatenation and does not mutate it). -/
def exhaustedStep (llm : LLM) (calls : Nat) (messages : List Message)
    (lastSucc : List (String × PyVal)) : LoopOutcome × Nat × List Message :=
  if lastSucc.isEmpty then
    (LoopOutcome.ret exhaustedApology, calls, messages)
  else
    (LoopOutcome.ret (graceOutcome (llm calls (messages ++ [Message.system graceInstruction]) [])),
     calls + 1, messages)

/-- `LLMOrchestrator._execute_conversation_loop`, fuel-indexed: `fuel` is
`max_iterations - iteration`, `calls` the number of model calls already
made, `lastSucc` the running `last_successful_tools`.  A model-call failure
re-raised by `_call_gpt4_with_tools` terminates the run as
`LoopOutcome.raised`; a turn with tool calls appends the assistant message
and the tool results in emission order and recurses; a turn without tool
calls returns the content (or the fixed fallback when it is empty). -/
def execLoop (llm : LLM) (decode : String → Except String (List (String × PyVal)))
    (tools : List ToolDefinition) (schemas : List ToolSchema) :
    Nat → List Message → Nat → List (String × PyVal) → LoopOutcome × Nat × List Message
  | 0, messages, calls, lastSucc => exhaustedStep llm calls messages lastSucc
  | fuel + 1, messages, calls, lastSucc =>
    match llm calls messages schemas with
    | Except.error e =>
        (LoopOutcome.raised ("Failed to call GPT-4: " ++ e), calls + 1, messages)
    | Except.ok resp =>
        if resp.tool_calls.isEmpty then
          match resp.content with
          | some c =>
              if c == "" then (LoopOutcome.ret noResponseFallback, calls + 1, messages)
              else (LoopOutcome.ret c, calls + 1, messages)
          | none => (LoopOutcome.ret noResponseFallback, calls + 1, messages)
        else
          let messages2 := messages ++
            Message.assistant resp.tool_calls resp.content ::
              turnToolMessages decode tools resp.tool_calls
          let current := successfulTools decode tools resp.tool_calls
          execLoop llm decode tools schemas fuel messages2 (calls + 1)
            (if current.isEmpty then lastSucc else current)

/-- `self.max_iterations` set in `LLMOrchestrator.__init__`. -/
def max_iterations : Nat := 100

/-- `_execute_conversation_loop` proper: run the loop from the initial
messages with `iteration = 0` and `last_successful_tools = []`. -/
def execute_conversation_loop (llm : LLM)
    (decode : String → Except String (List (String × PyVal)))
    (tools : List ToolDefinition) (schemas : List ToolSchema)
    (messages : List Message) (bound : Nat) : LoopOutcome × Nat × List Message :=
  execLoop llm decode tools schemas bound messages 0 []

/-- The wall-clock instant observed by `datetime.now()` at the start of one
`process_user_message` call; passed explicitly so that the per-call
freshness of the date block is visible in the model. -/
structure PyDateTime : Type where
  year : Nat
  month : Nat
  day : Nat
  hour : Nat
  minute : Nat
  second : Nat
deriving DecidableEq, Repr

/-- Two-digit zero padding, as in the `%m`, `%d`, `%H`, `%M`, `%S`
directives of `strftime`. -/
def pad2 (n : Nat) : String := if n < 10 then "0" ++ toString n else toString n

/-- The `%B` directive of `strftime`: full month name. -/
def monthName : Nat → String
  | 1 => "January"
  | 2 => "February"
  | 3 => "March"
  | 4 => "April"
  | 5 => "May"
  | 6 => "June"
  | 7 => "July"
  | 8 => "August"
  | 9 => "September"
  | 10 => "October"
  | 11 => "November"
  | 12 => "December"
  | _ => ""

/-- `now.strftime("%Y-%m-%d")`. -/
def strftimeDate (d : PyDateTime) : String :=
  toString d.year ++ "-" ++ pad2 d.month ++ "-" ++ pad2 d.day

/-- `now.strftime("%Y-%m-%d %H:%M:%S")`. -/
def strftimeDateTime (d : PyDateTime) : String :=
  strftimeDate d ++ " " ++ pad2 d.hour ++ ":" ++ pad2 d.minute ++ ":" ++ pad2 d.second

/-- `now.strftime("%B %Y")`. -/
def strftimeMonthYear (d : PyDateTime) : String :=
  monthName d.month ++ " " ++ toString d.year

/-- `LLMOrchestrator._get_current_datetime_context`: the date/time fact
block interpolated with the current instant. -/
def get_current_datetime_context (d : PyDateTime) : String :=
  "\n*CRITICAL DATE/TIME CONTEXT - ALWAYS USE THESE CURRENT VALUES:*\n" ++
  "• RIGHT NOW: " ++ strftimeDateTime d ++ "\n" ++
  "• TODAY\x27S DATE: " ++ strftimeDate d ++ "\n" ++
  "• CURRENT YEAR: " ++ toString d.year ++ "\n" ++
  "• CURRENT MONTH: " ++ strftimeMonthYear d ++ "\n" ++
  "• WHEN USER SAYS \"this month\": Use " ++ (strftimeDate d).take 7 ++
    " (e.g., 2025-09-01 to 2025-09-30)\n" ++
  "• WHEN USER SAYS \"this week\": Use dates from current week in " ++
    toString d.year ++ "\n" ++
  "• WHEN USER SAYS \"recent\" or \"latest\": Use " ++ toString d.year ++
    " dates, not 2023!\n" ++
  "• FOR TIME TRACKING: Always use " ++ toString d.year ++
    " dates unless user specifies otherwise\n" ++
  "• NEVER USE 2023 DATES - WE ARE IN " ++ toString d.year ++ "!\n"

/-- `self.base_system_prompt` set in `LLMOrchestrator.__init__`
(static instructions; transcribed from the source). -/
def base_system_prompt : String :=
  "You are the *Veza Digital AI Agent*, an intelligent assistant that helps C-level executives and leadership teams manage ClickUp projects and client information. Your role is to provide strategic insights, not just data.\n" ++
  "\n" ++
  "*Your Identity:*\n" ++
  "• You represent Veza Digital, a premium digital agency\n" ++
  "• You serve C-level executives who need strategic insights\n" ++
  "• You provide executive-level reports and analysis, not just task lists\n" ++
  "• You think like a business consultant, not just a task manager\n" ++
  "\n" ++
  "*Available Tools:*\n" ++
  "1. *Client Management*: Search and retrieve client mapping information from Supabase\n" ++
  "2. *ClickUp Integration*: Get tasks, create tasks, update tasks, and retrieve project information\n" ++
  "3. *Time Tracking*: Analyze hours spent on projects and client work\n" ++
  "4. *Employee Management*: Map Slack users to ClickUp users for task assignment\n" ++
  "\n" ++
  "*SUPABASE SCHEMA - ALWAYS USE THESE EXACT FIELD NAMES:*\n" ++
  "\n" ++
  "*client_mappings table fields:*\n" ++
  "• client_name (required)\n" ++
  "• clickup_project_name\n" ++
  "• clickup_folder_name\n" ++
  "• clickup_folder_id\n" ++
  "• clickup_list_name\n" ++
  "• clickup_list_id\n" ++
  "• slack_internal_channel_name\n" ++
  "• slack_internal_channel_id\n" ++
  "• slack_external_channel_name\n" ++
  "• slack_external_channel_id\n" ++
  "• alternatives (array)\n" ++
  "• notes\n" ++
  "• qa_list_name\n" ++
  "• qa_list_id\n" ++
  "• project_type\n" ++
  "• available_hours\n" ++
  "• revenue\n" ++
  "• average_delivery_hourly (NOT average_hourly_rate!)\n" ++
  "• status\n" ++
  "\n" ++
  "*employees table fields:*\n" ++
  "• real_name\n" ++
  "• slack_user_id\n" ++
  "• clickup_user_id\n" ++
  "• email\n" ++
  "• slack_username\n" ++
  "• clickup_username\n" ++
  "• clickup_role\n" ++
  "• clickup_color\n" ++
  "• clickup_initials\n" ++
  "• is_active\n" ++
  "\n" ++
  "*CRITICAL FIELD MAPPING RULES:*\n" ++
  "• When user says \"Project Name\" → Use clickup_project_name\n" ++
  "• When user says \"Average Hourly Rate\" → Use average_delivery_hourly\n" ++
  "• When user says \"Folder ID\" → Use clickup_folder_id\n" ++
  "• When user says \"List ID\" → Use clickup_list_id\n" ++
  "• When user says \"Internal Channel\" → Use slack_internal_channel_id\n" ++
  "• When user says \"External Channel\" → Use slack_external_channel_id\n" ++
  "\n" ++
  "*Executive-Level Capabilities:*\n" ++
  "• Provide strategic project status reports with insights\n" ++
  "• Analyze project health and identify risks/opportunities\n" ++
  "• Create executive summaries of client work\n" ++
  "• Offer business recommendations based on project data\n" ++
  "• Track resource allocation and project profitability insights\n" ++
  "\n" ++
  "*Critical Response Guidelines:*\n" ++
  "• Always provide insights and analysis, not just raw data\n" ++
  "• Think like a business consultant - what does this data mean for the business?\n" ++
  "• Identify trends, risks, opportunities, and recommendations\n" ++
  "• Present information in executive summary format\n" ++
  "• FIRST: Try get_client_by_channel_id with the channel_id from context to find the client\n" ++
  "• If channel lookup fails, then extract client names from user queries and use search_client_mappings\n" ++
  "• When asked about \"what\x27s happening\" or \"latest updates\", use the get_tasks_updated_since tool\n" ++
  "• For task creation, always get the client mapping first to find the correct list_id\n" ++
  "• When users say \"this client\" or similar, use the channel_id to identify which client they mean\n" ++
  "\n" ++
  "*MANDATORY SLACK FORMATTING - NO EXCEPTIONS:*\n" ++
  "ALL responses MUST use Slack formatting, NOT Markdown. Use ONLY these Slack syntax elements:\n" ++
  "\n" ++
  "*bold text* for emphasis (NEVER use **bold**)\n" ++
  "_italic text_ for definitions\n" ++
  "~strikethrough~ when needed\n" ++
  "`code snippets` for technical terms\n" ++
  "• Use manual bullet points (NEVER use - or *)\n" ++
  "<URL|text> for links with custom text\n" ++
  ">Important callouts and insights\n" ++
  "\n" ++
  "ABSOLUTELY FORBIDDEN: Markdown syntax (**, ##, -, etc.)\n" ++
  "MANDATORY: Slack markup only (*text*, _text_, `code`, etc.)\n" ++
  "\n" ++
  "*Executive Response Style:*\n" ++
  "• Lead with key insights and business impact\n" ++
  "• Provide strategic recommendations\n" ++
  "• Use executive summary format\n" ++
  "• Include relevant metrics and trends\n" ++
  "• Highlight risks and opportunities\n" ++
  "• Be concise but comprehensive\n" ++
  "• Use emojis strategically (📊 for reports, ⚠️ for risks, 💡 for insights)\n" ++
  "\n" ++
  "Remember: You serve C-level executives who need strategic insights about their client projects, not just task lists. Always provide business value and actionable intelligence."

/-- The `system_prompt` property: static instructions plus a freshly
computed date/time block (`f"{base}\n\n{datetime_context}"`). -/
def system_prompt (now : PyDateTime) : String :=
  base_system_prompt ++ "\n\n" ++ get_current_datetime_context now

/-- The context system message
(`f"Additional context: {json.dumps(context, indent=2)}"`; the `indent=2`
pretty-printing of the dumped mapping is abstracted to plain `dumps`). -/
def contextMessage (ctx : List (String × PyVal)) : String :=
  "Additional context: " ++ PyVal.dumps (PyVal.vdict ctx)

/-- The initial message sequence of `process_user_message`: system prompt
then user message, with `messages.insert(-1, ...)` placing the context
system message immediately before the user message when `if context:` is
truthy — i.e. when a context mapping is supplied AND non-empty. -/
def initialMessages (user_message : String)
    (context : Option (List (String × PyVal))) (now : PyDateTime) : List Message :=
  match context with
  | some ctx =>
      if ctx.isEmpty then
        [Message.system (system_prompt now), Message.user user_message]
      else
        [Message.system (system_prompt now),
         Message.system (contextMessage ctx),
         Message.user user_message]
  | none => [Message.system (system_prompt now), Message.user user_message]

/-- The apology built by the top-level `except` of `process_user_message`
around the exception text. -/
def topLevelApology (e : String) : String :=
  "I apologize, but I encountered an error while processing your request: " ++
    e ++ ". Please try again or rephrase your question."

/-- The loop run performed inside the `try` of `process_user_message`: the
registry schemas, the initial conversation and the iteration bound are
fixed there.  (`user_id` and `channel_id` only feed logging and are
omitted.) -/
def orchestratorRun (llm : LLM)
    (decode : String → Except String (List (String × PyVal)))
    (tools : List ToolDefinition) (user_message : String)
    (context : Option (List (String × PyVal))) (now : PyDateTime) :
    LoopOutcome × Nat × List Message :=
  execute_conversation_loop llm decode tools (get_tool_schemas tools)
    (initialMessages user_message context now) max_iterations

/-- `LLMOrchestrator.process_user_message`: build the initial conversation,
run the loop with the registry schemas and `max_iterations`, and return its
text; any exception escaping the loop is caught and converted into the
top-level apology string. -/
def process_user_message (llm : LLM)
    (decode : String → Except String (List (String × PyVal)))
    (tools : List ToolDefinition) (user_message : String)
    (context : Option (List (String × PyVal))) (now : PyDateTime) : String :=
  match orchestratorRun llm decode tools user_message context now with
  | (LoopOutcome.ret s, _, _) => s
  | (LoopOutcome.raised e, _, _) => topLevelApology e

/-- `sub` occurs contiguously inside `s`. -/
def ContainsSubstr (s sub : String) : Prop :=
  ∃ a b : String, s = a ++ sub ++ b

/-- The id-referencing invariant on a conversation: every tool-result
message's `tool_call_id` names a tool call carried by an assistant message
strictly earlier in the sequence. -/
def toolIdReferenced (msgs : List Message) : Prop :=
  ∀ (i : Nat) (id c : String), msgs[i]? = some (Message.tool id c) →
    ∃ j : Nat, j < i ∧ ∃ tcs ct, msgs[j]? = some (Message.assistant tcs ct) ∧
      ∃ tc ∈ tcs, tc.id = id

/-- Bookkeeping for runs whose model responses are a fixed family `R`
(indexed by the call number): the value of `last_successful_tools` after
`fuel` further tool turns starting at call number `start` with accumulator
`acc` — the successes of the most recent turn that had any, else `acc`. -/
def accumSucc (decode : String → Except String (List (String × PyVal)))
    (tools : List ToolDefinition) (R : Nat → ModelResponse) :
    Nat → Nat → List (String × PyVal) → List (String × PyVal)
  | _, 0, acc => acc
  | start, fuel + 1, acc =>
      accumSucc decode tools R (start + 1) fuel
        (if (successfulTools decode tools (R start).tool_calls).isEmpty then acc
         else successfulTools decode tools (R start).tool_calls)

/-- A decoder stub that accepts every payload as the empty argument dict. -/
def decode0 : String → Except String (List (String × PyVal)) :=
  fun _ => Except.ok []

/-- A decoder stub that rejects every payload. -/
def decodeBad : String → Except String (List (String × PyVal)) :=
  fun _ => Except.error "bad json"

/-- A trivial always-succeeding tool. -/
def pingTool : ToolDefinition := ⟨"ping_tool", [], fun _ => Except.ok (PyVal.vstr "pong")⟩

/-- A tool whose handler always raises `ValueError("boom")`. -/
def boomTool : ToolDefinition := ⟨"boom_tool", [], fun _ => Except.error "boom"⟩

/-- A two-tool registry for concrete runs. -/
def stubTools : List ToolDefinition := [pingTool, boomTool]

/-- A model request for the always-succeeding tool. -/
def pingCall : ToolCall := ⟨"call_1", "ping_tool", "\x7b\x7d"⟩

/-- A model request for the raising tool. -/
def boomCall : ToolCall := ⟨"call_2", "boom_tool", "\x7b\x7d"⟩

/-- A model request for a name absent from the registry. -/
def missingCall : ToolCall := ⟨"call_3", "nope", "\x7b\x7d"⟩

/-- A fixed instant for concrete runs. -/
def now0 : PyDateTime := ⟨2026, 10, 12, 9, 30, 0⟩

/-- The fixed tool-turn response of the iteration-bound stub model. -/
def stubToolResponse : ModelResponse := ⟨[pingCall], none⟩

/-- The response family of the iteration-bound stub model. -/
def stubR : Nat → ModelResponse := fun _ => stubToolResponse

/-- A stub model that requests the always-succeeding tool on each of its
first 100 calls and answers the grace call with fixed text. -/
def stubLLM : LLM := fun calls _ _ =>
  if calls < 100 then Except.ok stubToolResponse
  else Except.ok ⟨[], some "stub summary"⟩

/-- Response family for the grace-call counterexample run: one successful
tool turn, then 99 turns requesting an unknown tool. -/
def ceR : Nat → ModelResponse := fun k =>
  if k == 0 then ⟨[pingCall], none⟩ else ⟨[missingCall], none⟩

/-- Stub model for the grace-call counterexample run: the 100 in-loop turns
follow `ceR`; the grace call returns the text SUMMARY. -/
def ceLLM : LLM := fun calls _ _ =>
  if calls < 100 then Except.ok (ceR calls)
  else Except.ok ⟨[], some "SUMMARY"⟩

/-- A single-tool registry in which `missingCall` resolves to nothing. -/
def ceTools : List ToolDefinition := [pingTool]

/-- A model stub whose service call always raises. -/
def failLLM : LLM := fun _ _ _ => Except.error "network down"

/-- A model stub that immediately answers with final text. -/
def directLLM : LLM := fun _ _ _ => Except.ok ⟨[], some "4"⟩

/-- The registry behaviour stub used for schema-level witnesses. -/
def behave0 : String → List (String × PyVal) → Except String PyVal :=
  fun _ _ => Except.ok PyVal.vnone

/-! ## Helper lemmas -/

theorem isEmpty_false_of_ne_nil {α : Type} {l : List α} (h : l ≠ []) :
    l.isEmpty = false := by
  cases l with
  | nil => exact absurd rfl h
  | cons a t => rfl

theorem containsSubstr_append_left (pre sub : String) :
    ContainsSubstr (pre ++ sub) sub :=
  ⟨pre, "", (String.append_empty (pre ++ sub)).symm⟩

theorem containsSubstr_append_both (pre sub post : String) :
    ContainsSubstr (pre ++ sub ++ post) sub :=
  ⟨pre, post, rfl⟩

theorem execLoop_tool_turn (llm : LLM)
    (decode : String → Except String (List (String × PyVal)))
    (tools : List ToolDefinition) (schemas : List ToolSchema)
    (fuel : Nat) (messages : List Message) (calls : Nat)
    (lastSucc : List (String × PyVal)) (resp : ModelResponse)
    (hok : llm calls messages schemas = Except.ok resp)
    (hne : resp.tool_calls ≠ []) :
    execLoop llm decode tools schemas (fuel + 1) messages calls lastSucc
      = execLoop llm decode tools schemas fuel
          (messages ++ Message.assistant resp.tool_calls resp.content ::
            turnToolMessages decode tools resp.tool_calls)
          (calls + 1)
          (if (successfulTools decode tools resp.tool_calls).isEmpty then lastSucc
           else successfulTools decode tools resp.tool_calls) := by
  simp only [execLoop, hok, isEmpty_false_of_ne_nil hne, Bool.false_eq_true, if_false]

/-- Claim C1: every dispatcher outcome is a returned value, never a
propagated exception: an undecodable argument payload, an unknown tool
name, and a raising handler each produce an `error` envelope whose message
contains the underlying error text, and the loop proceeds with that
envelope appended as the tool result of the invocation. -/
theorem C1_dispatcher_normalization
    (decode : String → Except String (List (String × PyVal)))
    (tools : List ToolDefinition) (tc : ToolCall) :
    (∀ e, decode tc.arguments = Except.error e →
       execute_tool_call decode tools tc
         = PyVal.vdict [("error", PyVal.vstr ("Invalid tool arguments: " ++ e))] ∧
       ContainsSubstr ("Invalid tool arguments: " ++ e) e) ∧
    (∀ args, decode tc.arguments = Except.ok args →
       tools.find? (fun t => t.name == tc.name) = none →
       execute_tool_call decode tools tc
         = PyVal.vdict [("error", PyVal.vstr
             ("Tool execution failed: Tool call failed: Tool \x27" ++ tc.name ++
               "\x27 not found"))] ∧
       ContainsSubstr
         ("Tool execution failed: Tool call failed: Tool \x27" ++ tc.name ++ "\x27 not found")
         ("Tool \x27" ++ tc.name ++ "\x27 not found")) ∧
    (∀ args t e, decode tc.arguments = Except.ok args →
       tools.find? (fun t2 => t2.name == tc.name) = some t →
       t.run args = Except.error e →
       execute_tool_call decode tools tc
         = PyVal.vdict [("error", PyVal.vstr
             ("Tool execution failed: Tool call failed: " ++ e))] ∧
       ContainsSubstr ("Tool execution failed: Tool call failed: " ++ e) e) ∧
    (∀ (llm : LLM) (schemas : List ToolSchema) (fuel : Nat)
       (messages : List Message) (calls : Nat) (lastSucc : List (String × PyVal))
       (resp : ModelResponse),
       llm calls messages schemas = Except.ok resp →
       tc ∈ resp.tool_calls →
       ∃ lastSucc2,
         execLoop llm decode tools schemas (fuel + 1) messages calls lastSucc
           = execLoop llm decode tools schemas fuel
               (messages ++ Message.assistant resp.tool_calls resp.content ::
                 turnToolMessages decode tools resp.tool_calls)
               (calls + 1) lastSucc2 ∧
         Message.tool tc.id (serializeToolResult (execute_tool_call decode tools tc))
           ∈ turnToolMessages decode tools resp.tool_calls) := by
  refine ⟨?_, ?_, ?_, ?_⟩
  · intro e hdec
    refine ⟨?_, containsSubstr_append_left _ _⟩
    simp only [execute_tool_call, hdec]
  · intro args hdec hfind
    refine ⟨?_, ?_⟩
    · simp only [execute_tool_call, hdec, call_tool, hfind]
      rw [← String.append_assoc, ← String.append_assoc]
      rfl
    · refine ⟨"Tool execution failed: Tool call failed: ", "", ?_⟩
      rw [String.append_empty, ← String.append_assoc, ← String.append_assoc]
      rfl
  · intro args t e hdec hfind hrun
    refine ⟨?_, containsSubstr_append_left _ _⟩
    simp only [execute_tool_call, hdec, call_tool, hfind, hrun]
    rw [← String.append_assoc]
    rfl
  · intro llm schemas fuel messages calls lastSucc resp hok hmem
    have hne : resp.tool_calls ≠ [] := by
      intro h
      rw [h] at hmem
      exact (List.not_mem_nil tc) hmem
    refine ⟨_, execLoop_tool_turn llm decode tools schemas fuel messages calls
      lastSucc resp hok hne, ?_⟩
    exact List.mem_map_of_mem _ hmem

/-- Witness for C1: the three failure shapes at concrete inputs — a payload
the decoder rejects, a request for the unregistered name `nope`, and the
handler raising `ValueError("boom")` — each yield the error envelope with
the underlying text inside. -/
theorem C1_dispatcher_normalization_witness :
    (execute_tool_call decodeBad stubTools pingCall
       = PyVal.vdict [("error", PyVal.vstr "Invalid tool arguments: bad json")] ∧
     ContainsSubstr "Invalid tool arguments: bad json" "bad json") ∧
    (execute_tool_call decode0 stubTools missingCall
       = PyVal.vdict [("error", PyVal.vstr
           "Tool execution failed: Tool call failed: Tool \x27nope\x27 not found")] ∧
     ContainsSubstr "Tool execution failed: Tool call failed: Tool \x27nope\x27 not found"
       "Tool \x27nope\x27 not found") ∧
    (execute_tool_call decode0 stubTools boomCall
       = PyVal.vdict [("error", PyVal.vstr
           "Tool execution failed: Tool call failed: boom")] ∧
     ContainsSubstr "Tool execution failed: Tool call failed: boom" "boom") := by
  refine ⟨?_, ?_, ?_⟩
  · exact (C1_dispatcher_normalization decodeBad stubTools pingCall).1 "bad json" rfl
  · exact (C1_dispatcher_normalization decode0 stubTools missingCall).2.1 [] rfl rfl
  · exact (C1_dispatcher_normalization decode0 stubTools boomCall).2.2.1 []
      boomTool "boom" rfl rfl rfl

theorem execLoop_no_tools (llm : LLM)
    (decode : String → Except String (List (String × PyVal)))
    (tools : List ToolDefinition) (schemas : List ToolSchema)
    (fuel : Nat) (messages : List Message) (calls : Nat)
    (lastSucc : List (String × PyVal)) (resp : ModelResponse)
    (hok : llm calls messages schemas = Except.ok resp)
    (hempty : resp.tool_calls = []) :
    execLoop llm decode tools schemas (fuel + 1) messages calls lastSucc
      = (match resp.content with
         | some c =>
             if c == "" then (LoopOutcome.ret noResponseFallback, calls + 1, messages)
             else (LoopOutcome.ret c, calls + 1, messages)
         | none => (LoopOutcome.ret noResponseFallback, calls + 1, messages)) := by
  simp only [execLoop, hok, hempty, List.isEmpty_nil, if_true]

/-- Claim C9: a model response within the loop that carries no tool calls
ends the loop, returning its text, or the generic fallback when the text is
empty or missing; at the top level `process_user_message` returns that same
text. -/
theorem C9_final_text_ends_loop (llm : LLM)
    (decode : String → Except String (List (String × PyVal)))
    (tools : List ToolDefinition) :
    (∀ (schemas : List ToolSchema) (fuel : Nat) (messages : List Message)
       (calls : Nat) (lastSucc : List (String × PyVal)) (resp : ModelResponse),
       llm calls messages schemas = Except.ok resp → resp.tool_calls = [] →
       (∀ c, resp.content = some c → c ≠ "" →
          execLoop llm decode tools schemas (fuel + 1) messages calls lastSucc
            = (LoopOutcome.ret c, calls + 1, messages)) ∧
       (resp.content = some "" →
          execLoop llm decode tools schemas (fuel + 1) messages calls lastSucc
            = (LoopOutcome.ret noResponseFallback, calls + 1, messages)) ∧
       (resp.content = none →
          execLoop llm decode tools schemas (fuel + 1) messages calls lastSucc
            = (LoopOutcome.ret noResponseFallback, calls + 1, messages))) ∧
    (∀ (user_message : String) (context : Option (List (String × PyVal)))
       (now : PyDateTime) (resp : ModelResponse) (c : String),
       llm 0 (initialMessages user_message context now) (get_tool_schemas tools)
           = Except.ok resp →
       resp.tool_calls = [] → resp.content = some c → c ≠ "" →
       process_user_message llm decode tools user_message context now = c) := by
  constructor
  · intro schemas fuel messages calls lastSucc resp hok hempty
    refine ⟨?_, ?_, ?_⟩
    · intro c hc hcne
      rw [execLoop_no_tools llm decode tools schemas fuel messages calls lastSucc resp hok hempty,
        hc]
      cases hcb : (c == "") with
      | true => exact absurd (beq_iff_eq.mp hcb) hcne
      | false => simp [hcb]
    · intro hc
      rw [execLoop_no_tools llm decode tools schemas fuel messages calls lastSucc resp hok hempty,
        hc]
      rfl
    · intro hc
      rw [execLoop_no_tools llm decode tools schemas fuel messages calls lastSucc resp hok hempty,
        hc]
  · intro user_message context now resp c hok hempty hc hcne
    have h100 : max_iterations = 99 + 1 := rfl
    simp only [process_user_message, orchestratorRun, execute_conversation_loop, h100]
    rw [execLoop_no_tools llm decode tools (get_tool_schemas tools) 99
      (initialMessages user_message context now) 0 [] resp hok hempty, hc]
    cases hcb : (c == "") with
    | true => exact absurd (beq_iff_eq.mp hcb) hcne
    | false => simp [hcb]

/-- Witness for C9: a stub model answering "4" on its first call, without
tool requests, makes the loop return "4" after one model call, and
`process_user_message` returns "4". -/
theorem C9_final_text_ends_loop_witness :
    execLoop directLLM decode0 stubTools [] 1 [] 0 []
      = (LoopOutcome.ret "4", 1, ([] : List Message)) ∧
    process_user_message directLLM decode0 stubTools "What is 2+2?" none now0 = "4" := by
  constructor
  · exact ((C9_final_text_ends_loop directLLM decode0 stubTools).1 [] 0 [] 0 []
      ⟨[], some "4"⟩ rfl rfl).1 "4" rfl (by decide)
  · exact (C9_final_text_ends_loop directLLM decode0 stubTools).2 "What is 2+2?" none now0
      ⟨[], some "4"⟩ "4" rfl rfl rfl (by decide)

/-- Counterexample for C4: with a model service whose very first call
raises, `process_user_message` does not surface an error result: the
exception is caught at the top level and converted into a normal apology
text answer, even though the loop itself terminated with the raised
transport failure after that single call. -/
theorem C4_counterexample :
    process_user_message failLLM decode0 stubTools "hello" none now0
      = "I apologize, but I encountered an error while processing your request: Failed to call GPT-4: network down. Please try again or rephrase your question." ∧
    (orchestratorRun failLLM decode0 stubTools "hello" none now0).1
      = LoopOutcome.raised "Failed to call GPT-4: network down" ∧
    (orchestratorRun failLLM decode0 stubTools "hello" none now0).2.1 = 1 := by
  exact ⟨rfl, rfl, rfl⟩

/-- Claim C4 (amended): a failure of the language-model service call is not
recovered inside the conversation loop — it aborts the loop at once, with
no further model calls or tool executions, as a raised exception wrapped
`Failed to call GPT-4: ...` — but the top-level handler of
`process_user_message` catches it and returns the apology string embedding
the failure text (a text result, not an error result). -/
theorem C4_transport_failure_fatal (llm : LLM)
    (decode : String → Except String (List (String × PyVal)))
    (tools : List ToolDefinition) :
    (∀ (schemas : List ToolSchema) (fuel : Nat) (messages : List Message)
       (calls : Nat) (lastSucc : List (String × PyVal)) (e : String),
       llm calls messages schemas = Except.error e →
       execLoop llm decode tools schemas (fuel + 1) messages calls lastSucc
         = (LoopOutcome.raised ("Failed to call GPT-4: " ++ e), calls + 1, messages)) ∧
    (∀ (user_message : String) (context : Option (List (String × PyVal)))
       (now : PyDateTime) (e : String),
       llm 0 (initialMessages user_message context now) (get_tool_schemas tools)
           = Except.error e →
       (orchestratorRun llm decode tools user_message context now).1
           = LoopOutcome.raised ("Failed to call GPT-4: " ++ e) ∧
       process_user_message llm decode tools user_message context now
           = topLevelApology ("Failed to call GPT-4: " ++ e) ∧
       ContainsSubstr (process_user_message llm decode tools user_message context now) e) := by
  constructor
  · intro schemas fuel messages calls lastSucc e herr
    simp only [execLoop, herr]
  · intro user_message context now e herr
    have h100 : max_iterations = 99 + 1 := rfl
    have hrun : orchestratorRun llm decode tools user_message context now
        = (LoopOutcome.raised ("Failed to call GPT-4: " ++ e), 0 + 1,
           initialMessages user_message context now) := by
      simp only [orchestratorRun, execute_conversation_loop, h100, execLoop, herr]
    refine ⟨by rw [hrun], ?_, ?_⟩
    · simp only [process_user_message, hrun]
    · simp only [process_user_message, hrun, topLevelApology]
      exact ⟨"I apologize, but I encountered an error while processing your request: " ++
        "Failed to call GPT-4: ", ". Please try again or rephrase your question.", by
          simp only [String.append_assoc]⟩

/-- Witness for C4 (amended): the failing stub model at concrete inputs. -/
theorem C4_transport_failure_fatal_witness :
    execLoop failLLM decode0 stubTools [] 1 [] 0 []
      = (LoopOutcome.raised "Failed to call GPT-4: network down", 1, ([] : List Message)) ∧
    (orchestratorRun failLLM decode0 stubTools "hi" none now0).1
      = LoopOutcome.raised "Failed to call GPT-4: network down" ∧
    process_user_message failLLM decode0 stubTools "hi" none now0
      = topLevelApology "Failed to call GPT-4: network down" ∧
    ContainsSubstr (process_user_message failLLM decode0 stubTools "hi" none now0)
      "network down" := by
  refine ⟨?_, ?_⟩
  · exact (C4_transport_failure_fatal failLLM decode0 stubTools).1 [] 0 [] 0 []
      "network down" rfl
  · exact (C4_transport_failure_fatal failLLM decode0 stubTools).2 "hi" none now0
      "network down" rfl

/-- Claim C10: for every input and every behaviour of the model service and
the tool handlers, `process_user_message` returns a string: either the text
the loop produced, or — when an exception escaped the loop — the top-level
apology embedding that exception's message text. -/
theorem C10_process_total (llm : LLM)
    (decode : String → Except String (List (String × PyVal)))
    (tools : List ToolDefinition) (user_message : String)
    (context : Option (List (String × PyVal))) (now : PyDateTime) :
    ∃ s : String,
      process_user_message llm decode tools user_message context now = s ∧
      ((orchestratorRun llm decode tools user_message context now).1
          = LoopOutcome.ret s ∨
       ∃ e, (orchestratorRun llm decode tools user_message context now).1
          = LoopOutcome.raised e ∧
         s = topLevelApology e ∧ ContainsSubstr s e) := by
  rcases hrun : orchestratorRun llm decode tools user_message context now with ⟨out, calls, msgs⟩
  cases out with
  | ret s =>
      refine ⟨s, ?_, Or.inl rfl⟩
      simp only [process_user_message, hrun]
  | raised e =>
      refine ⟨topLevelApology e, ?_, Or.inr ⟨e, rfl, rfl, ?_⟩⟩
      · simp only [process_user_message, hrun]
      · exact containsSubstr_append_both
          "I apologize, but I encountered an error while processing your request: " e
          ". Please try again or rephrase your question."

theorem execLoop_fixed (llm : LLM)
    (decode : String → Except String (List (String × PyVal)))
    (tools : List ToolDefinition) (schemas : List ToolSchema)
    (R : Nat → ModelResponse) :
    ∀ (fuel calls : Nat) (messages : List Message) (lastSucc : List (String × PyVal)),
      (∀ k msgs, calls ≤ k → k < calls + fuel →
          llm k msgs schemas = Except.ok (R k) ∧ (R k).tool_calls ≠ []) →
      ∃ messages2 : List Message,
        execLoop llm decode tools schemas fuel messages calls lastSucc
          = exhaustedStep llm (calls + fuel) messages2
              (accumSucc decode tools R calls fuel lastSucc) := by
  intro fuel
  induction fuel with
  | zero =>
      intro calls messages lastSucc _
      exact ⟨messages, by simp [execLoop, accumSucc]⟩
  | succ n ih =>
      intro calls messages lastSucc H
      obtain ⟨hok, hne⟩ := H calls messages (Nat.le_refl _) (by omega)
      rw [execLoop_tool_turn llm decode tools schemas n messages calls lastSucc (R calls)
        hok hne]
      obtain ⟨m2, hm2⟩ := ih (calls + 1)
        (messages ++ Message.assistant (R calls).tool_calls (R calls).content ::
          turnToolMessages decode tools (R calls).tool_calls)
        (if (successfulTools decode tools (R calls).tool_calls).isEmpty then lastSucc
         else successfulTools decode tools (R calls).tool_calls)
        (fun k msgs h1 h2 => H k msgs (by omega) (by omega))
      refine ⟨m2, ?_⟩
      have hacc : accumSucc decode tools R calls (n + 1) lastSucc
          = accumSucc decode tools R (calls + 1) n
              (if (successfulTools decode tools (R calls).tool_calls).isEmpty then lastSucc
               else successfulTools decode tools (R calls).tool_calls) := rfl
      have harith : calls + (n + 1) = calls + 1 + n := by omega
      rw [harith, hacc]
      exact hm2

theorem accumSucc_eq_nil_iff
    (decode : String → Except String (List (String × PyVal)))
    (tools : List ToolDefinition) (R : Nat → ModelResponse) :
    ∀ (fuel start : Nat) (acc : List (String × PyVal)),
      accumSucc decode tools R start fuel acc = [] ↔
        (acc = [] ∧ ∀ k, start ≤ k → k < start + fuel →
          successfulTools decode tools (R k).tool_calls = []) := by
  intro fuel
  induction fuel with
  | zero =>
      intro start acc
      simp only [accumSucc]
      constructor
      · intro h
        exact ⟨h, fun k h1 h2 => absurd h2 (by omega)⟩
      · exact fun h => h.1
  | succ n ih =>
      intro start acc
      have hstep : accumSucc decode tools R start (n + 1) acc
          = accumSucc decode tools R (start + 1) n
              (if (successfulTools decode tools (R start).tool_calls).isEmpty then acc
               else successfulTools decode tools (R start).tool_calls) := rfl
      rw [hstep, ih (start + 1)]
      by_cases hcur : successfulTools decode tools (R start).tool_calls = []
      · rw [if_pos (List.isEmpty_iff.mpr hcur)]
        constructor
        · intro h
          refine ⟨h.1, fun k h1 h2 => ?_⟩
          rcases Nat.eq_or_lt_of_le h1 with heq | hlt
          · exact heq ▸ hcur
          · exact h.2 k (by omega) (by omega)
        · intro h
          exact ⟨h.1, fun k h1 h2 => h.2 k (by omega) (by omega)⟩
      · rw [if_neg (by simp [List.isEmpty_iff, hcur])]
        constructor
        · intro h
          exact absurd h.1 hcur
        · intro h
          exact absurd (h.2 start (Nat.le_refl _) (by omega)) hcur

theorem execLoop_all_tool_turns (llm : LLM)
    (decode : String → Except String (List (String × PyVal)))
    (tools : List ToolDefinition) (schemas : List ToolSchema) :
    ∀ (fuel calls : Nat) (messages : List Message) (lastSucc : List (String × PyVal)),
      (∀ k msgs, calls ≤ k → k < calls + fuel →
          ∃ resp, llm k msgs schemas = Except.ok resp ∧ resp.tool_calls ≠ [] ∧
            successfulTools decode tools resp.tool_calls ≠ []) →
      (1 ≤ fuel ∨ lastSucc ≠ []) →
      ∃ (messages2 : List Message) (lastSucc2 : List (String × PyVal)),
        lastSucc2 ≠ [] ∧
        execLoop llm decode tools schemas fuel messages calls lastSucc
          = exhaustedStep llm (calls + fuel) messages2 lastSucc2 := by
  intro fuel
  induction fuel with
  | zero =>
      intro calls messages lastSucc _ hne
      rcases hne with h1 | h2
      · exact absurd h1 (by omega)
      · exact ⟨messages, lastSucc, h2, by simp [execLoop]⟩
  | succ n ih =>
      intro calls messages lastSucc H _
      obtain ⟨resp, hok, hne, hsucc⟩ := H calls messages (Nat.le_refl _) (by omega)
      rw [execLoop_tool_turn llm decode tools schemas n messages calls lastSucc resp hok hne]
      obtain ⟨m2, l2, hl2, hm2⟩ := ih (calls + 1)
        (messages ++ Message.assistant resp.tool_calls resp.content ::
          turnToolMessages decode tools resp.tool_calls)
        (successfulTools decode tools resp.tool_calls)
        (fun k msgs h1 h2 => H k msgs (by omega) (by omega)) (Or.inr hsucc)
      refine ⟨m2, l2, hl2, ?_⟩
      have harith : calls + (n + 1) = calls + 1 + n := by omega
      rw [harith]
      simp only [isEmpty_false_of_ne_nil hsucc, Bool.false_eq_true, if_false]
      exact hm2

/-- Claim C2: with a stub model whose every in-loop response requests at
least one tool call that executes successfully and never returns final
text, the run makes exactly 101 model calls — the 100 tool turns plus one
grace call — and `process_user_message` returns the grace-call text when
it is non-empty and the fixed apology otherwise. -/
theorem C2_iteration_bound (llm : LLM)
    (decode : String → Except String (List (String × PyVal)))
    (tools : List ToolDefinition)
    (user_message : String) (context : Option (List (String × PyVal)))
    (now : PyDateTime)
    (H : ∀ k msgs, k < 100 →
        ∃ resp, llm k msgs (get_tool_schemas tools) = Except.ok resp ∧
          resp.tool_calls ≠ [] ∧
          successfulTools decode tools resp.tool_calls ≠ []) :
    ∃ messages2 : List Message,
      (orchestratorRun llm decode tools user_message context now).2.1 = 101 ∧
      (orchestratorRun llm decode tools user_message context now).1
        = LoopOutcome.ret (graceOutcome
            (llm 100 (messages2 ++ [Message.system graceInstruction]) [])) ∧
      (process_user_message llm decode tools user_message context now = exhaustedApology ∨
       ∃ (r : ModelResponse) (c : String),
         llm 100 (messages2 ++ [Message.system graceInstruction]) [] = Except.ok r ∧
         r.content = some c ∧ c ≠ "" ∧
         process_user_message llm decode tools user_message context now = c) := by
  obtain ⟨m2, l2, hl2, hm2⟩ := execLoop_all_tool_turns llm decode tools
    (get_tool_schemas tools) 100 0 (initialMessages user_message context now) []
    (fun k msgs h1 h2 => H k msgs (by omega)) (Or.inl (by omega))
  have hrun : orchestratorRun llm decode tools user_message context now
      = (LoopOutcome.ret (graceOutcome
            (llm 100 (m2 ++ [Message.system graceInstruction]) [])), 100 + 1, m2) := by
    simp only [orchestratorRun, execute_conversation_loop, max_iterations]
    rw [hm2]
    simp only [Nat.zero_add, exhaustedStep, isEmpty_false_of_ne_nil hl2,
      Bool.false_eq_true, if_false]
  have hproc : process_user_message llm decode tools user_message context now
      = graceOutcome (llm 100 (m2 ++ [Message.system graceInstruction]) []) := by
    simp only [process_user_message, hrun]
  refine ⟨m2, by rw [hrun], by rw [hrun], ?_⟩
  rcases hg : llm 100 (m2 ++ [Message.system graceInstruction]) [] with e | r
  · left
    rw [hproc, hg]
    rfl
  · rcases hc : r.content with _ | c
    · left
      rw [hproc, hg]
      simp [graceOutcome, hc]
    · by_cases hce : c = ""
      · left
        rw [hproc, hg]
        simp [graceOutcome, hc, hce]
      · right
        refine ⟨r, c, rfl, hc, hce, ?_⟩
        rw [hproc, hg]
        simp [graceOutcome, hc, hce]

/-- Witness for C2: the stub model requesting the always-succeeding
`ping_tool` each turn satisfies the hypothesis, and the run makes 101 model
calls. -/
theorem C2_iteration_bound_witness :
    (∀ k msgs, k < 100 →
        ∃ resp, stubLLM k msgs (get_tool_schemas stubTools) = Except.ok resp ∧
          resp.tool_calls ≠ [] ∧
          successfulTools decode0 stubTools resp.tool_calls ≠ []) ∧
    (∃ messages2 : List Message,
      (orchestratorRun stubLLM decode0 stubTools "go" none now0).2.1 = 101 ∧
      (orchestratorRun stubLLM decode0 stubTools "go" none now0).1
        = LoopOutcome.ret (graceOutcome
            (stubLLM 100 (messages2 ++ [Message.system graceInstruction]) [])) ∧
      (process_user_message stubLLM decode0 stubTools "go" none now0 = exhaustedApology ∨
       ∃ (r : ModelResponse) (c : String),
         stubLLM 100 (messages2 ++ [Message.system graceInstruction]) [] = Except.ok r ∧
         r.content = some c ∧ c ≠ "" ∧
         process_user_message stubLLM decode0 stubTools "go" none now0 = c)) := by
  have H : ∀ k msgs, k < 100 →
      ∃ resp, stubLLM k msgs (get_tool_schemas stubTools) = Except.ok resp ∧
        resp.tool_calls ≠ [] ∧
        successfulTools decode0 stubTools resp.tool_calls ≠ [] := by
    intro k msgs hk
    refine ⟨stubToolResponse, ?_, ?_, ?_⟩
    · simp only [stubLLM, if_pos hk]
    · simp [stubToolResponse]
    · have hval : successfulTools decode0 stubTools stubToolResponse.tool_calls
          = [("ping_tool", PyVal.vstr "pong")] := rfl
      rw [hval]
      exact List.cons_ne_nil _ _
  exact ⟨H, C2_iteration_bound stubLLM decode0 stubTools "go" none now0 H⟩

/-- Counterexample for C3: a run whose first turn has a successful tool
invocation and whose remaining 99 turns request only an unknown tool (every
execution yields an error envelope).  The most recent completed turn has no
successful invocation, yet the grace call is still made — 101 model calls
in total — and its text SUMMARY is returned instead of the fixed apology:
the code keeps the successes of the most recent turn that had any, not of
the final turn. -/
theorem C3_counterexample :
    (orchestratorRun ceLLM decode0 ceTools "q" none now0).2.1 = 101 ∧
    (ceR 99).tool_calls = [missingCall] ∧
    isErrorResult (execute_tool_call decode0 ceTools missingCall) = true ∧
    process_user_message ceLLM decode0 ceTools "q" none now0 = "SUMMARY" := by
  exact ⟨rfl, rfl, rfl, rfl⟩

/-- Claim C3 (amended): when every in-loop turn requests tool calls, the
grace call is made — the run reaches 101 model calls — if and only if at
least one completed turn of the run (not necessarily the most recent one)
had a successful tool invocation; when no turn ever had one the loop stops
at 100 calls and returns the fixed apology, and when the grace call is made
but yields no usable text or fails, `process_user_message` likewise returns
the fixed apology, else the grace text. -/
theorem C3_grace_call_condition (llm : LLM)
    (decode : String → Except String (List (String × PyVal)))
    (tools : List ToolDefinition) (R : Nat → ModelResponse)
    (user_message : String) (context : Option (List (String × PyVal)))
    (now : PyDateTime)
    (H : ∀ k msgs, k < 100 →
        llm k msgs (get_tool_schemas tools) = Except.ok (R k) ∧ (R k).tool_calls ≠ []) :
    ((orchestratorRun llm decode tools user_message context now).2.1 = 101 ↔
       ∃ k, k < 100 ∧ successfulTools decode tools (R k).tool_calls ≠ []) ∧
    ((∀ k, k < 100 → successfulTools decode tools (R k).tool_calls = []) →
       (orchestratorRun llm decode tools user_message context now).1
           = LoopOutcome.ret exhaustedApology ∧
       (orchestratorRun llm decode tools user_message context now).2.1 = 100 ∧
       process_user_message llm decode tools user_message context now = exhaustedApology) ∧
    ((∃ k, k < 100 ∧ successfulTools decode tools (R k).tool_calls ≠ []) →
       ∃ messages2 : List Message,
         (∀ e, llm 100 (messages2 ++ [Message.system graceInstruction]) [] = Except.error e →
            process_user_message llm decode tools user_message context now
              = exhaustedApology) ∧
         (∀ r, llm 100 (messages2 ++ [Message.system graceInstruction]) [] = Except.ok r →
            r.content = none →
            process_user_message llm decode tools user_message context now
              = exhaustedApology) ∧
         (∀ r, llm 100 (messages2 ++ [Message.system graceInstruction]) [] = Except.ok r →
            r.content = some "" →
            process_user_message llm decode tools user_message context now
              = exhaustedApology) ∧
         (∀ r c, llm 100 (messages2 ++ [Message.system graceInstruction]) [] = Except.ok r →
            r.content = some c → c ≠ "" →
            process_user_message llm decode tools user_message context now = c)) := by
  obtain ⟨m2, hm2⟩ := execLoop_fixed llm decode tools (get_tool_schemas tools) R 100 0
    (initialMessages user_message context now) []
    (fun k msgs h1 h2 => H k msgs (by omega))
  have hAll : accumSucc decode tools R 0 100 [] = [] ↔
      (∀ k, k < 100 → successfulTools decode tools (R k).tool_calls = []) := by
    rw [accumSucc_eq_nil_iff]
    constructor
    · intro h k hk
      exact h.2 k (Nat.zero_le k) (by omega)
    · intro h
      exact ⟨rfl, fun k _ hk => h k (by omega)⟩
  by_cases hacc : accumSucc decode tools R 0 100 [] = []
  · have hrun : orchestratorRun llm decode tools user_message context now
        = (LoopOutcome.ret exhaustedApology, 100, m2) := by
      simp only [orchestratorRun, execute_conversation_loop, max_iterations]
      rw [hm2]
      simp only [Nat.zero_add, exhaustedStep, hacc, List.isEmpty_nil, if_true]
    refine ⟨?_, ?_, ?_⟩
    · rw [hrun]
      constructor
      · intro h
        exact absurd h (by norm_num)
      · intro ⟨k, hk, hs⟩
        exact absurd (hAll.mp hacc k hk) hs
    · intro _
      exact ⟨by rw [hrun], by rw [hrun], by simp only [process_user_message, hrun]⟩
    · intro ⟨k, hk, hs⟩
      exact absurd (hAll.mp hacc k hk) hs
  · have hrun : orchestratorRun llm decode tools user_message context now
        = (LoopOutcome.ret (graceOutcome
              (llm 100 (m2 ++ [Message.system graceInstruction]) [])), 100 + 1, m2) := by
      simp only [orchestratorRun, execute_conversation_loop, max_iterations]
      rw [hm2]
      simp only [Nat.zero_add, exhaustedStep, isEmpty_false_of_ne_nil hacc,
        Bool.false_eq_true, if_false]
    have hproc : process_user_message llm decode tools user_message context now
        = graceOutcome (llm 100 (m2 ++ [Message.system graceInstruction]) []) := by
      simp only [process_user_message, hrun]
    refine ⟨?_, ?_, ?_⟩
    · rw [hrun]
      constructor
      · intro _
        by_contra hno
        push_neg at hno
        exact hacc (hAll.mpr (fun k hk => hno k hk))
      · intro _
        rfl
    · intro hall
      exact absurd (hAll.mpr hall) hacc
    · intro _
      refine ⟨m2, ?_, ?_, ?_, ?_⟩
      · intro e he
        rw [hproc, he]
        rfl
      · intro r hr hc
        rw [hproc, hr]
        simp [graceOutcome, hc]
      · intro r hr hc
        rw [hproc, hr]
        simp [graceOutcome, hc]
      · intro r c hr hc hcne
        rw [hproc, hr]
        simp [graceOutcome, hc, hcne]

/-- Witness for C3 (amended): the counterexample run satisfies the
hypothesis, its first turn has a successful invocation, and the grace call
is made. -/
theorem C3_grace_call_condition_witness :
    (∀ k msgs, k < 100 →
        ceLLM k msgs (get_tool_schemas ceTools) = Except.ok (ceR k) ∧
        (ceR k).tool_calls ≠ []) ∧
    ((orchestratorRun ceLLM decode0 ceTools "q" none now0).2.1 = 101 ↔
       ∃ k, k < 100 ∧ successfulTools decode0 ceTools (ceR k).tool_calls ≠ []) ∧
    (∃ k, k < 100 ∧ successfulTools decode0 ceTools (ceR k).tool_calls ≠ []) := by
  have H : ∀ k msgs, k < 100 →
      ceLLM k msgs (get_tool_schemas ceTools) = Except.ok (ceR k) ∧
      (ceR k).tool_calls ≠ [] := by
    intro k msgs hk
    constructor
    · simp only [ceLLM, if_pos hk]
    · simp only [ceR]
      cases hk0 : (k == 0) with
      | true => simp [hk0]
      | false => simp [hk0]
  have hk0 : successfulTools decode0 ceTools (ceR 0).tool_calls
      = [("ping_tool", PyVal.vstr "pong")] := rfl
  refine ⟨H, ?_, ?_⟩
  · exact (C3_grace_call_condition ceLLM decode0 ceTools ceR "q" none now0 H).1
  · exact ⟨0, by omega, by rw [hk0]; exact List.cons_ne_nil _ _⟩

theorem wellFormed_turn_append
    (decode : String → Except String (List (String × PyVal)))
    (tools : List ToolDefinition) (msgs : List Message)
    (tcs : List ToolCall) (ct : Option String)
    (h : toolIdReferenced msgs) :
    toolIdReferenced
      (msgs ++ Message.assistant tcs ct :: turnToolMessages decode tools tcs) := by
  intro i id c hi
  by_cases hlt : i < msgs.length
  · rw [List.getElem?_append_left hlt] at hi
    obtain ⟨j, hj, tcs2, ct2, hjget, tc, htc, hid⟩ := h i id c hi
    refine ⟨j, hj, tcs2, ct2, ?_, tc, htc, hid⟩
    rw [List.getElem?_append_left (lt_trans hj hlt)]
    exact hjget
  · push_neg at hlt
    rw [List.getElem?_append_right hlt] at hi
    rcases hdiff : i - msgs.length with _ | k
    · rw [hdiff] at hi
      simp only [List.getElem?_cons_zero, Option.some.injEq] at hi
      exact absurd hi (by simp)
    · rw [hdiff] at hi
      simp only [List.getElem?_cons_succ] at hi
      rw [turnToolMessages, List.getElem?_map] at hi
      rcases hk : tcs[k]? with _ | tc
      · rw [hk] at hi
        simp at hi
      · rw [hk] at hi
        simp only [Option.map_some', Option.some.injEq, Message.tool.injEq] at hi
        refine ⟨msgs.length, by omega, tcs, ct, ?_, tc, List.getElem?_mem hk, hi.1⟩
        rw [List.getElem?_append_right (Nat.le_refl _)]
        simp

theorem execLoop_messages_extend (llm : LLM)
    (decode : String → Except String (List (String × PyVal)))
    (tools : List ToolDefinition) (schemas : List ToolSchema) :
    ∀ (fuel : Nat) (messages : List Message) (calls : Nat)
      (lastSucc : List (String × PyVal)),
      ∃ tail : List Message,
        (execLoop llm decode tools schemas fuel messages calls lastSucc).2.2
          = messages ++ tail := by
  intro fuel
  induction fuel with
  | zero =>
      intro messages calls lastSucc
      refine ⟨[], ?_⟩
      cases hl : lastSucc.isEmpty <;> simp [execLoop, exhaustedStep, hl]
  | succ n ih =>
      intro messages calls lastSucc
      rcases hllm : llm calls messages schemas with e | resp
      · refine ⟨[], ?_⟩
        simp [execLoop, hllm]
      · by_cases htc : resp.tool_calls = []
        · refine ⟨[], ?_⟩
          rw [execLoop_no_tools llm decode tools schemas n messages calls lastSucc resp
            hllm htc]
          rcases hc : resp.content with _ | c
          · simp
          · cases hcb : (c == "") <;> simp [hcb]
        · rw [execLoop_tool_turn llm decode tools schemas n messages calls lastSucc resp
            hllm htc]
          obtain ⟨tail, htail⟩ := ih
            (messages ++ Message.assistant resp.tool_calls resp.content ::
              turnToolMessages decode tools resp.tool_calls) (calls + 1)
            (if (successfulTools decode tools resp.tool_calls).isEmpty then lastSucc
             else successfulTools decode tools resp.tool_calls)
          refine ⟨(Message.assistant resp.tool_calls resp.content ::
            turnToolMessages decode tools resp.tool_calls) ++ tail, ?_⟩
          rw [htail, List.append_assoc]

theorem execLoop_wellFormed (llm : LLM)
    (decode : String → Except String (List (String × PyVal)))
    (tools : List ToolDefinition) (schemas : List ToolSchema) :
    ∀ (fuel : Nat) (messages : List Message) (calls : Nat)
      (lastSucc : List (String × PyVal)),
      toolIdReferenced messages →
      toolIdReferenced
        (execLoop llm decode tools schemas fuel messages calls lastSucc).2.2 := by
  intro fuel
  induction fuel with
  | zero =>
      intro messages calls lastSucc h
      cases hl : lastSucc.isEmpty <;> simpa [execLoop, exhaustedStep, hl] using h
  | succ n ih =>
      intro messages calls lastSucc h
      rcases hllm : llm calls messages schemas with e | resp
      · simpa [execLoop, hllm] using h
      · by_cases htc : resp.tool_calls = []
        · rw [execLoop_no_tools llm decode tools schemas n messages calls lastSucc resp
            hllm htc]
          rcases hc : resp.content with _ | c
          · simpa using h
          · cases hcb : (c == "") <;> simpa [hcb] using h
        · rw [execLoop_tool_turn llm decode tools schemas n messages calls lastSucc resp
            hllm htc]
          exact ih _ (calls + 1) _
            (wellFormed_turn_append decode tools messages resp.tool_calls resp.content h)

/-- Claim C5: a turn requesting invocations [A, B, C] appends, after the
assistant message carrying the requests, their tool-result messages in that
order, each tagged with its request's id; the message sequence is
append-only across the loop, and every reachable conversation state keeps
the invariant that each tool-result message's id references a tool call of
an earlier assistant message. -/
theorem C5_tool_result_ordering
    (decode : String → Except String (List (String × PyVal)))
    (tools : List ToolDefinition) :
    (∀ (A B C : ToolCall) (ct : Option String),
       Message.assistant [A, B, C] ct :: turnToolMessages decode tools [A, B, C]
         = [Message.assistant [A, B, C] ct,
            Message.tool A.id (serializeToolResult (execute_tool_call decode tools A)),
            Message.tool B.id (serializeToolResult (execute_tool_call decode tools B)),
            Message.tool C.id (serializeToolResult (execute_tool_call decode tools C))]) ∧
    (∀ (llm : LLM) (schemas : List ToolSchema) (fuel : Nat) (messages : List Message)
       (calls : Nat) (lastSucc : List (String × PyVal)) (resp : ModelResponse),
       llm calls messages schemas = Except.ok resp → resp.tool_calls ≠ [] →
       ∃ lastSucc2,
         execLoop llm decode tools schemas (fuel + 1) messages calls lastSucc
           = execLoop llm decode tools schemas fuel
               (messages ++ Message.assistant resp.tool_calls resp.content ::
                 turnToolMessages decode tools resp.tool_calls)
               (calls + 1) lastSucc2) ∧
    (∀ (llm : LLM) (schemas : List ToolSchema) (fuel : Nat) (messages : List Message)
       (calls : Nat) (lastSucc : List (String × PyVal)),
       ∃ tail : List Message,
         (execLoop llm decode tools schemas fuel messages calls lastSucc).2.2
           = messages ++ tail) ∧
    (∀ (llm : LLM) (schemas : List ToolSchema) (fuel : Nat) (messages : List Message)
       (calls : Nat) (lastSucc : List (String × PyVal)),
       toolIdReferenced messages →
       toolIdReferenced
         (execLoop llm decode tools schemas fuel messages calls lastSucc).2.2) := by
  refine ⟨fun A B C ct => rfl, ?_, ?_, ?_⟩
  · intro llm schemas fuel messages calls lastSucc resp hok hne
    exact ⟨_, execLoop_tool_turn llm decode tools schemas fuel messages calls lastSucc
      resp hok hne⟩
  · intro llm schemas
    exact execLoop_messages_extend llm decode tools schemas
  · intro llm schemas
    exact execLoop_wellFormed llm decode tools schemas

/-- Witness for C5: the turn shape at three concrete invocations, and the
id-referencing invariant on the final state of a concrete bounded run. -/
theorem C5_tool_result_ordering_witness :
    (Message.assistant [pingCall, boomCall, missingCall] none ::
        turnToolMessages decode0 stubTools [pingCall, boomCall, missingCall]
      = [Message.assistant [pingCall, boomCall, missingCall] none,
         Message.tool "call_1"
           (serializeToolResult (execute_tool_call decode0 stubTools pingCall)),
         Message.tool "call_2"
           (serializeToolResult (execute_tool_call decode0 stubTools boomCall)),
         Message.tool "call_3"
           (serializeToolResult (execute_tool_call decode0 stubTools missingCall))]) ∧
    toolIdReferenced
      (execLoop stubLLM decode0 stubTools [] 2
        [Message.system "s", Message.user "u"] 0 []).2.2 := by
  have hbase : toolIdReferenced [Message.system "s", Message.user "u"] := by
    intro i id c hi
    match i with
    | 0 => simp at hi
    | 1 => simp at hi
    | n + 2 => simp at hi
  constructor
  · exact (C5_tool_result_ordering decode0 stubTools).1 pingCall boomCall missingCall none
  · exact (C5_tool_result_ordering decode0 stubTools).2.2.2 stubLLM [] 2
      [Message.system "s", Message.user "u"] 0 [] hbase

/-- Claim C6: `_get_type_schema` maps native annotations by the fixed
rules — string, integer, float, boolean to their JSON names, lists to
arrays with recursively mapped items, mappings to object, `Optional[T]`
unwrapped to T's schema, anything unrecognized to string — and, for every
registered capability, a parameter is in `required` exactly when it has no
default, with its property mapped through those rules. -/
theorem C6_type_mapping_and_required :
    get_type_schema PyType.pystr = TypeSchema.prim "string" ∧
    get_type_schema PyType.pyint = TypeSchema.prim "integer" ∧
    get_type_schema PyType.pyfloat = TypeSchema.prim "number" ∧
    get_type_schema PyType.pybool = TypeSchema.prim "boolean" ∧
    (∀ t, get_type_schema (PyType.pylist t) = TypeSchema.arr (get_type_schema t)) ∧
    (∀ k v, get_type_schema (PyType.pydict k v) = TypeSchema.prim "object") ∧
    (∀ t, t ≠ PyType.pynone →
       get_type_schema (PyType.pyunion t PyType.pynone) = get_type_schema t ∧
       get_type_schema (PyType.pyunion PyType.pynone t) = get_type_schema t) ∧
    get_type_schema PyType.pyAny = TypeSchema.prim "string" ∧
    get_type_schema PyType.pyEmpty = TypeSchema.prim "string" ∧
    (∀ (behave : String → List (String × PyVal) → Except String PyVal),
       ∀ t ∈ registered_tools behave, ∀ p ∈ t.params,
         ((p.name ∈ (tool_schema t).required ↔ p.hasDefault = false) ∧
          (p.name, get_type_schema p.type) ∈ (tool_schema t).properties)) := by
  refine ⟨rfl, rfl, rfl, rfl, fun t => rfl, fun k v => rfl, ?_, rfl, rfl, ?_⟩
  · intro t ht
    constructor <;> cases t <;> first | rfl | exact absurd rfl ht
  · intro behave t ht
    simp only [registered_tools, List.mem_map] at ht
    obtain ⟨s, hs, rfl⟩ := ht
    intro p hp
    have core : ∀ s2 ∈ registered_sigs, ∀ p2 ∈ s2.2,
        ((p2.name ∈ (s2.2.filter (fun q => !q.hasDefault)).map (fun q => q.name) ↔
            p2.hasDefault = false) ∧
         (p2.name, get_type_schema p2.type) ∈
            s2.2.map (fun q => (q.name, get_type_schema q.type))) := by decide
    exact core s hs p hp

/-- Witness for C6: the `Optional` unwrapping at a concrete non-`None`
member, and the rule at a concrete registered capability and parameter. -/
theorem C6_type_mapping_and_required_witness :
    (get_type_schema (PyType.pyunion PyType.pyint PyType.pynone)
        = TypeSchema.prim "integer" ∧
     get_type_schema (PyType.pyunion PyType.pynone PyType.pyint)
        = TypeSchema.prim "integer") ∧
    (reqP "client_name" PyType.pystr).name
        ∈ (tool_schema ⟨"get_client_mapping", [reqP "client_name" PyType.pystr],
            behave0 "get_client_mapping"⟩).required := by
  constructor
  · exact C6_type_mapping_and_required.2.2.2.2.2.2.1 PyType.pyint (by decide)
  · have hmem : (⟨"get_client_mapping", [reqP "client_name" PyType.pystr],
        behave0 "get_client_mapping"⟩ : ToolDefinition) ∈ registered_tools behave0 :=
      List.mem_map.mpr ⟨("get_client_mapping", [reqP "client_name" PyType.pystr]),
        by decide, rfl⟩
    have hp : (reqP "client_name" PyType.pystr)
        ∈ (⟨"get_client_mapping", [reqP "client_name" PyType.pystr],
            behave0 "get_client_mapping"⟩ : ToolDefinition).params := by
      exact List.mem_singleton.mpr rfl
    exact ((C6_type_mapping_and_required.2.2.2.2.2.2.2.2.2 behave0 _ hmem _ hp).1).mpr rfl

/-- Claim C7: for every registered capability, the parameter names of the
schema exposed to the model are exactly the declared parameter names of the
handler's signature — same list, and the same set in both directions. -/
theorem C7_schema_matches_signature
    (behave : String → List (String × PyVal) → Except String PyVal)
    (t : ToolDefinition) (ht : t ∈ registered_tools behave) :
    (tool_schema t).properties.map Prod.fst = t.params.map (fun p => p.name) ∧
    (∀ n : String,
       (∃ ts, (n, ts) ∈ (tool_schema t).properties) ↔ ∃ p ∈ t.params, p.name = n) := by
  constructor
  · simp only [tool_schema, List.map_map]
    rfl
  · intro n
    constructor
    · intro ⟨ts, hts⟩
      simp only [tool_schema, List.mem_map] at hts
      obtain ⟨p, hp, heq⟩ := hts
      simp only [Prod.mk.injEq] at heq
      exact ⟨p, hp, heq.1⟩
    · intro ⟨p, hp, hn⟩
      exact ⟨get_type_schema p.type,
        List.mem_map.mpr ⟨p, hp, by rw [hn]⟩⟩

/-- Witness for C7: the property applied to a concrete registry member. -/
theorem C7_schema_matches_signature_witness :
    (tool_schema ⟨"get_client_mapping", [reqP "client_name" PyType.pystr],
        behave0 "get_client_mapping"⟩).properties.map Prod.fst
      = [reqP "client_name" PyType.pystr].map (fun p => p.name) := by
  have hmem : (⟨"get_client_mapping", [reqP "client_name" PyType.pystr],
      behave0 "get_client_mapping"⟩ : ToolDefinition) ∈ registered_tools behave0 :=
    List.mem_map.mpr ⟨("get_client_mapping", [reqP "client_name" PyType.pystr]),
      by decide, rfl⟩
  exact (C7_schema_matches_signature behave0 _ hmem).1

/-- Counterexample for C8: a supplied but empty context mapping adds no
context system message — `if context:` is false on an empty dict — so the
initial conversation has two messages, not the three the claim predicts
for every supplied context. -/
theorem C8_counterexample :
    initialMessages "hi" (some []) now0
      = [Message.system (system_prompt now0), Message.user "hi"] ∧
    (initialMessages "hi" (some []) now0).length = 2 := by
  exact ⟨rfl, rfl⟩

/-- Claim C8 (amended): the initial conversation of every `process` call
is the system message of static instructions plus the date/time block
computed from that call's clock, then — exactly when a NON-EMPTY context
mapping is supplied — one context system message immediately before the
user message, then the user message, and nothing else. -/
theorem C8_initial_conversation (user_message : String)
    (context : Option (List (String × PyVal))) (now : PyDateTime) :
    (context = none → initialMessages user_message context now
        = [Message.system (system_prompt now), Message.user user_message]) ∧
    (context = some [] → initialMessages user_message context now
        = [Message.system (system_prompt now), Message.user user_message]) ∧
    (∀ ctx, context = some ctx → ctx ≠ [] →
       initialMessages user_message context now
         = [Message.system (system_prompt now),
            Message.system (contextMessage ctx),
            Message.user user_message]) ∧
    system_prompt now = base_system_prompt ++ "\n\n" ++ get_current_datetime_context now ∧
    (initialMessages user_message context now)[0]?
      = some (Message.system (system_prompt now)) := by
  refine ⟨?_, ?_, ?_, rfl, ?_⟩
  · intro h
    rw [h]
    rfl
  · intro h
    rw [h]
    rfl
  · intro ctx h hne
    rw [h]
    simp only [initialMessages, isEmpty_false_of_ne_nil hne, Bool.false_eq_true, if_false]
  · rcases context with _ | ctx
    · rfl
    · cases hc : ctx.isEmpty <;> simp [initialMessages, hc]

/-- Witness for C8 (amended): a non-empty supplied context yields the
three-message initial conversation; an absent context yields two. -/
theorem C8_initial_conversation_witness :
    initialMessages "hello" (some [("channel_id", PyVal.vstr "C123")]) now0
      = [Message.system (system_prompt now0),
         Message.system (contextMessage [("channel_id", PyVal.vstr "C123")]),
         Message.user "hello"] ∧
    initialMessages "hello" none now0
      = [Message.system (system_prompt now0), Message.user "hello"] := by
  constructor
  · exact (C8_initial_conversation "hello"
      (some [("channel_id", PyVal.vstr "C123")]) now0).2.2.1
      [("channel_id", PyVal.vstr "C123")] rfl (List.cons_ne_nil _ _)
  · exact (C8_initial_conversation "hello" none now0).1 rfl
